import Mathlib

/-!
# Verification of the loquaz broker (`src/broker.rs`)

A shallow embedding of the asynchronous command/notification broker in
`src/broker.rs`.  The broker sits between the protocol core
(`CoreTaskHandle`, an external collaborator whose implementation lives
outside this file's sources) and the druid presentation layer.

Modelling choices:

* The core is split into an abstract mutable state (`CoreState`, holding
  the data the broker reads back: relay urls, contacts, user, conversations)
  and an abstract behaviour (`CoreBehavior`): one function per core
  operation the broker invokes, each returning the result event the broker
  scrutinises together with the updated core state.  Theorems quantify over
  every behaviour, so they hold for the real core whatever it does.
* Every interaction of the broker with the outside world is recorded as an
  `Action` in a trace: core-operation calls and submissions to the
  presentation sink (`submit_command` for the startup config notification,
  `add_idle_callback` closures for config / user / conversation updates).
* Idle callbacks capture entities and compute their projection on the
  presentation thread; `applyAction` gives each recorded sink submission its
  meaning as a (possibly panicking, hence `Option`) transformation of the
  druid `AppState`.  In particular the `get_sk().unwrap()` inside
  `update_user_state`'s closure is modelled by `none` when the captured
  user has no secret key.
-/

namespace Loquaz

/-- A contact record (`crate::core::config::Contact`), as used by
`broker.rs`: an alias and a public key rendered to a string by
`to_string()`. -/
structure Contact where
  «alias» : String
  pk : String
deriving DecidableEq

/-- Modelled from the spec: `ContactState` (alias + public key string),
built by `ContactState::new(&c.alias, &c.pk.to_string())`. -/
structure ContactState where
  «alias» : String
  pk : String
deriving DecidableEq

/-- `ContactState::new`. -/
def ContactState.new (a : String) (pk : String) : ContactState :=
  { «alias» := a, pk := pk }

/-- Modelled from the spec: the config snapshot (`ConfigState`) holds the
ordered sequence of configured relay urls and the known contacts. -/
structure ConfigState where
  relays_url : List String
  contacts : List ContactState
deriving DecidableEq

/-- `ConfigState::new()`: the empty config snapshot that `load_config` and
`update_config_state` start from before filling both fields. -/
def ConfigState.new : ConfigState :=
  { relays_url := [], contacts := [] }

/-- The core user entity as seen by `broker.rs`: `get_sk()` yields an
optional secret key, `get_pk()` a public key; both rendered by
`to_string()`. -/
structure User where
  sk : Option String
  pk : String
deriving DecidableEq

/-- `user.get_sk()`. -/
def User.get_sk (u : User) : Option String := u.sk

/-- `user.get_pk()`. -/
def User.get_pk (u : User) : String := u.pk

/-- Modelled from the spec: `UserState` holds the current secret-key and
public-key string representations. -/
structure UserState where
  sk : String
  pk : String
deriving DecidableEq

/-- `UserState::new`. -/
def UserState.new (sk : String) (pk : String) : UserState :=
  { sk := sk, pk := pk }

/-- Modelled from the spec: the message entity carried by a `NewMessage`
notification (sender, content, timestamp — exact fields owned by the
external message entity). -/
structure Msg where
  author : String
  content : String
  timestamp : Nat
deriving DecidableEq

/-- Modelled from the spec: `MessageState`, the immutable projection of one
message entity. -/
structure MessageState where
  author : String
  content : String
  timestamp : Nat
deriving DecidableEq

/-- `MessageState::from_entity`: projects a message entity field by
field. -/
def MessageState.from_entity (m : Msg) : MessageState :=
  { author := m.author, content := m.content, timestamp := m.timestamp }

/-- The core conversation entity: holds the ordered message history for one
peer. -/
structure Conversation where
  messages : List Msg
deriving DecidableEq

/-- Modelled from the spec: `ConversationState`, an ordered append-friendly
sequence of message snapshots for the currently selected peer. -/
structure ConversationState where
  messages : List MessageState
deriving DecidableEq

/-- `ConversationState::from_entity`: projects every constituent message. -/
def ConversationState.from_entity (c : Conversation) : ConversationState :=
  { messages := c.messages.map MessageState.from_entity }

/-- Modelled from the spec: the druid `AppState` fields the broker touches —
the named state fields config, user and selected conversation. -/
structure AppState where
  config : ConfigState
  user : UserState
  selected_conv : Option ConversationState
deriving DecidableEq

/-- The `Ok(_)` / `Err(_)` outcome inside a `CoreTaskHandleEvent` variant
(payloads are owned by the external core and never inspected by the
broker). -/
inductive CoreResult where
  | ok
  | err
deriving DecidableEq

/-- The result events of `CoreTaskHandle` operations that `broker.rs`
scrutinises (`RelayAdded(Ok(_))`, `RemovedRelay(Ok(_))`); `Other` stands
for every variant the broker's `if let` patterns do not match. -/
inductive CoreTaskHandleEvent where
  | RelayAdded (r : CoreResult)
  | RemovedRelay (r : CoreResult)
  | Other
deriving DecidableEq

/-- The core-owned data `broker.rs` reads back: `get_config()`,
`get_user()`, `get_conv(pk)`. -/
structure CoreState where
  relays_url : List String
  contacts : List Contact
  user : User
  convs : List (String × Conversation)
deriving DecidableEq

/-- `core.get_config()`. -/
def CoreState.get_config (s : CoreState) : List String × List Contact :=
  (s.relays_url, s.contacts)

/-- `core_handle.get_user()`. -/
def CoreState.get_user (s : CoreState) : User := s.user

/-- `core_handle.get_conv(pk)`. -/
def CoreState.get_conv (s : CoreState) (pk : String) : Option Conversation :=
  s.convs.lookup pk

/-- The abstract behaviour of the external `CoreTaskHandle`: one function
per operation invoked by `broker.rs`, returning the event the broker
scrutinises (where the broker looks at it) and the updated core state. -/
structure CoreBehavior where
  add_relay : CoreState → String → CoreTaskHandleEvent × CoreState
  remove_relay : CoreState → String → CoreTaskHandleEvent × CoreState
  connect_relay : CoreState → String → CoreState
  disconnect_relay : CoreState → String → CoreState
  add_contact : CoreState → Contact → CoreTaskHandleEvent × CoreState
  remove_contact : CoreState → Contact → CoreTaskHandleEvent × CoreState
  subscribe : CoreState → CoreState
  import_user_sk : CoreState → String → CoreState
  gen_new_user_keypair : CoreState → CoreState
  send_msg_to_contact : CoreState → String → String → CoreState

/-- The command variants (`BrokerEvent` in `broker.rs`). -/
inductive BrokerEvent where
  | AddRelay (url : String)
  | RemoveRelay (url : String)
  | ConnectRelay (url : String)
  | DisconnectRelay (url : String)
  | AddContact (new_contact : Contact)
  | RemoveContact (contact : Contact)
  | SubscribeInRelays (pk : String)
  | RestoreKeyPair (sk : String)
  | GenerateNewKeyPair
  | SetConversation (pk : String)
  | SendMessage (pk : String) (content : String)
  | LoadConfigs
deriving DecidableEq

/-- The notification variants the core pushes (`ConvsNotifications`). -/
inductive ConvsNotifications where
  | NewMessage (msg : Msg)
deriving DecidableEq

/-- One observable interaction of the broker task: a call into the core, or
a submission to the presentation sink.  Sink submissions carry exactly what
the corresponding Rust closure captures. -/
inductive Action where
  | submitConfigUpdated (config : ConfigState)
  | setConfig (config : ConfigState)
  | setSelectedConvFrom (conv : Conversation)
  | setUserFrom (user : User)
  | callAddRelay (url : String)
  | callRemoveRelay (url : String)
  | callConnectRelay (url : String)
  | callDisconnectRelay (url : String)
  | callAddContact (c : Contact)
  | callRemoveContact (c : Contact)
  | callSubscribe
  | callImportUserSk (sk : String)
  | callGenNewUserKeypair
  | callGetConv (pk : String)
  | callGetConfig
  | callGetUser
  | callSendMsg (pk : String) (content : String)
deriving DecidableEq

/-- `load_config` (`broker.rs` lines 135–145): builds a fresh `ConfigState`
from `core.get_config()`. -/
def load_config (core : CoreState) : ConfigState :=
  let (relays_url, contacts) := core.get_config
  { relays_url := relays_url
    contacts := contacts.map (fun c => ContactState.new c.«alias» c.pk) }

/-- `update_config_state` (`broker.rs` lines 157–168): reads
`get_config()`, builds a fresh `ConfigState` and submits an idle callback
replacing `data.config`. -/
def update_config_state (core_handle : CoreState) : List Action :=
  let (relays_url, contacts) := core_handle.get_config
  let updated_config_state : ConfigState :=
    { relays_url := relays_url
      contacts := contacts.map (fun c => ContactState.new c.«alias» c.pk) }
  [Action.callGetConfig, Action.setConfig updated_config_state]

/-- `update_user_state` (`broker.rs` lines 147–155): reads `get_user()` and
submits an idle callback that will build `UserState` from the captured user
(unwrapping its secret key) on the presentation thread. -/
def update_user_state (core_handle : CoreState) : List Action :=
  let user := core_handle.get_user
  [Action.callGetUser, Action.setUserFrom user]

/-- One iteration of the command loop (`broker.rs` lines 77–131): the
`match broker_event` dispatch.  Returns the core state after the handled
command together with the trace of core calls and sink submissions it
performed, in program order. -/
def handleEvent (b : CoreBehavior) (s : CoreState) : BrokerEvent → CoreState × List Action
  | .SendMessage pk content =>
      (b.send_msg_to_contact s pk content, [Action.callSendMsg pk content])
  | .SetConversation pk =>
      match s.get_conv pk with
      | some conv => (s, [Action.callGetConv pk, Action.setSelectedConvFrom conv])
      | none => (s, [Action.callGetConv pk])
  | .RestoreKeyPair sk =>
      let s1 := b.import_user_sk s sk
      let s2 := b.subscribe s1
      (s2, Action.callImportUserSk sk :: Action.callSubscribe :: update_user_state s2)
  | .GenerateNewKeyPair =>
      let s1 := b.gen_new_user_keypair s
      let s2 := b.subscribe s1
      (s2, Action.callGenNewUserKeypair :: Action.callSubscribe :: update_user_state s2)
  | .AddRelay url =>
      let r := b.add_relay s url
      match r.1 with
      | .RelayAdded .ok => (r.2, Action.callAddRelay url :: update_config_state r.2)
      | _ => (r.2, [Action.callAddRelay url])
  | .RemoveRelay url =>
      let r := b.remove_relay s url
      match r.1 with
      | .RemovedRelay .ok => (r.2, Action.callRemoveRelay url :: update_config_state r.2)
      | _ => (r.2, [Action.callRemoveRelay url])
  | .ConnectRelay url =>
      (b.connect_relay s url, [Action.callConnectRelay url])
  | .DisconnectRelay url =>
      (b.disconnect_relay s url, [Action.callDisconnectRelay url])
  | .SubscribeInRelays _pk =>
      (b.subscribe s, [Action.callSubscribe])
  | .AddContact new_contact =>
      let r := b.add_contact s new_contact
      (r.2, Action.callAddContact new_contact :: update_config_state r.2)
  | .RemoveContact contact =>
      let r := b.remove_contact s contact
      (r.2, Action.callRemoveContact contact :: update_config_state r.2)
  | .LoadConfigs =>
      (s, update_config_state s)

/-- The command loop (`while let Some(broker_event) = broker_receiver.recv()`,
`broker.rs` lines 76–132).  The mpsc channel is modelled as the list of
commands it will yield before all producers are dropped; `recv` on the
empty list is channel closure and ends the loop. -/
def command_loop (b : CoreBehavior) : CoreState → List BrokerEvent → CoreState × List Action
  | s, [] => (s, [])
  | s, broker_event :: rest =>
      let r := handleEvent b s broker_event
      let r2 := command_loop b r.1 rest
      (r2.1, r.2 ++ r2.2)

/-- `start_broker` (`broker.rs` lines 41–133) as seen from its own task:
load and publish the config once via `submit_command` (the `BROKER_NOTI`
`ConfigUpdated` notification), then run the command loop.  The spawned
notification-relay task is modelled separately by `relay_loop`. -/
def start_broker (b : CoreBehavior) (init : CoreState) (events : List BrokerEvent) :
    CoreState × List Action :=
  let config := load_config init
  let r := command_loop b init events
  (r.1, Action.callGetConfig :: Action.submitConfigUpdated config :: r.2)

/-- The idle callback the notification-relay task submits for a
`NewMessage` notification (`broker.rs` lines 62–70): if a conversation is
selected, clone it, `push_back` the projected message and store the copy
back; otherwise leave the state alone. -/
def noti_callback : ConvsNotifications → AppState → AppState
  | .NewMessage new_msg, data =>
      match data.selected_conv with
      | some conv =>
          { data with
              selected_conv :=
                some { conv with
                         messages := conv.messages ++ [MessageState.from_entity new_msg] } }
      | none => data

/-- The notification-relay task
(`while let Ok(noti) = rec_convs_noti.recv()`, `broker.rs` lines 58–74),
applied to the presentation state: each received notification's callback is
applied once, in arrival order. -/
def relay_loop : List ConvsNotifications → AppState → AppState
  | [], data => data
  | noti :: rest, data => relay_loop rest (noti_callback noti data)

/-- Meaning of one recorded sink submission on the druid `AppState`.  Core
calls do not touch presentation state.  `setUserFrom` performs the
`user.get_sk().unwrap()` of `update_user_state`'s closure: `none` models
the panic when the captured user has no secret key. -/
def applyAction : Action → AppState → Option AppState
  | .submitConfigUpdated _, data => some data
  | .setConfig c, data => some { data with config := c }
  | .setSelectedConvFrom conv, data =>
      some { data with selected_conv := some (ConversationState.from_entity conv) }
  | .setUserFrom user, data =>
      match user.get_sk with
      | some sk => some { data with user := UserState.new sk user.get_pk }
      | none => none
  | _, data => some data

/-- Applies a trace of actions to the presentation state in order,
propagating a panic. -/
def applyTrace : List Action → AppState → Option AppState
  | [], data => some data
  | act :: rest, data =>
      match applyAction act data with
      | some d => applyTrace rest d
      | none => none

/-- Is this action a submission to the presentation sink (as opposed to a
call into the core)? -/
def isPublish : Action → Bool
  | .submitConfigUpdated _ => true
  | .setConfig _ => true
  | .setSelectedConvFrom _ => true
  | .setUserFrom _ => true
  | _ => false

/-- Is this action the submission of a `UserState` publication? -/
def isUserPublish : Action → Bool
  | .setUserFrom _ => true
  | _ => false

/-- Is this action a `subscribe()` call into the core? -/
def isSubscribeCall : Action → Bool
  | .callSubscribe => true
  | _ => false

/-- Some `UserState` publication occurs strictly before some `subscribe()`
call in the trace. -/
def user_publish_precedes_subscribe (t : List Action) : Prop :=
  ∃ i : Fin t.length, ∃ j : Fin t.length,
    (i : Nat) < (j : Nat) ∧ isUserPublish (t.get i) = true ∧ isSubscribeCall (t.get j) = true

/-- Some `subscribe()` call occurs strictly before some `UserState`
publication in the trace. -/
def subscribe_precedes_user_publish (t : List Action) : Prop :=
  ∃ i : Fin t.length, ∃ j : Fin t.length,
    (i : Nat) < (j : Nat) ∧ isSubscribeCall (t.get i) = true ∧ isUserPublish (t.get j) = true

instance (t : List Action) : Decidable (user_publish_precedes_subscribe t) := by
  unfold user_publish_precedes_subscribe
  infer_instance

instance (t : List Action) : Decidable (subscribe_precedes_user_publish t) := by
  unfold subscribe_precedes_user_publish
  infer_instance

/-! ## Concrete fixtures

Small concrete core states and behaviours used to evaluate the theorems on
explicit inputs. -/

/-- A concrete user entity holding a secret key. -/
def sampleUser : User :=
  { sk := some "nsec-sample", pk := "npub-sample" }

/-- A concrete core state: one relay, one contact, one conversation. -/
def sampleCore : CoreState :=
  { relays_url := ["wss://relay.example"]
    contacts := [{ «alias» := "alice", pk := "npub-alice" }]
    user := sampleUser
    convs := [("npub-alice", { messages := [] })] }

/-- A concrete core behaviour on which every operation succeeds. -/
def sampleBehavior : CoreBehavior :=
  { add_relay := fun s url =>
      (.RelayAdded .ok, { s with relays_url := s.relays_url ++ [url] })
    remove_relay := fun s url =>
      (.RemovedRelay .ok, { s with relays_url := s.relays_url.filter (fun u => u ≠ url) })
    connect_relay := fun s _ => s
    disconnect_relay := fun s _ => s
    add_contact := fun s c => (.Other, { s with contacts := s.contacts ++ [c] })
    remove_contact := fun s c => (.Other, { s with contacts := s.contacts.filter (fun d => d ≠ c) })
    subscribe := fun s => s
    import_user_sk := fun s sk => { s with user := { sk := some sk, pk := s.user.pk } }
    gen_new_user_keypair := fun s => { s with user := { sk := some "nsec-new", pk := "npub-new" } }
    send_msg_to_contact := fun s _ _ => s }

/-- A concrete core behaviour on which relay mutations are rejected. -/
def rejectingBehavior : CoreBehavior :=
  { add_relay := fun s _ => (.RelayAdded .err, s)
    remove_relay := fun s _ => (.RemovedRelay .err, s)
    connect_relay := fun s _ => s
    disconnect_relay := fun s _ => s
    add_contact := fun s _ => (.Other, s)
    remove_contact := fun s _ => (.Other, s)
    subscribe := fun s => s
    import_user_sk := fun s sk => { s with user := { sk := some sk, pk := s.user.pk } }
    gen_new_user_keypair := fun s => { s with user := { sk := some "nsec-new", pk := "npub-new" } }
    send_msg_to_contact := fun s _ _ => s }

/-- A concrete presentation state with no conversation selected. -/
def sampleApp : AppState :=
  { config := ConfigState.new
    user := UserState.new "nsec-sample" "npub-sample"
    selected_conv := none }

/-- A concrete conversation snapshot with one message already displayed. -/
def sampleConvState : ConversationState :=
  { messages := [{ author := "npub-alice", content := "hello", timestamp := 10 }] }

/-- A concrete presentation state with `sampleConvState` selected. -/
def sampleAppWithConv : AppState :=
  { config := ConfigState.new
    user := UserState.new "nsec-sample" "npub-sample"
    selected_conv := some sampleConvState }

/-- A concrete message entity. -/
def sampleMsg : Msg :=
  { author := "npub-alice", content := "hi there", timestamp := 42 }

/-! ## Claim theorems -/

/-- C1: For every AddRelay(url) or RemoveRelay(url) command, the config
snapshot is refreshed and published if and only if the core operation
returns success (`RelayAdded(Ok(_))` / `RemovedRelay(Ok(_))`); on a failing
relay operation no publication occurs, so applying the handler's trace to
any presentation state leaves it unchanged. -/
theorem relay_mutations_publish_iff_success (b : CoreBehavior) (s : CoreState) (url : String)
    (data : AppState) :
    ((handleEvent b s (.AddRelay url)).2.any isPublish = true
        ↔ (b.add_relay s url).1 = .RelayAdded .ok)
    ∧ ((handleEvent b s (.RemoveRelay url)).2.any isPublish = true
        ↔ (b.remove_relay s url).1 = .RemovedRelay .ok)
    ∧ ((b.add_relay s url).1 ≠ .RelayAdded .ok →
        applyTrace (handleEvent b s (.AddRelay url)).2 data = some data)
    ∧ ((b.remove_relay s url).1 ≠ .RemovedRelay .ok →
        applyTrace (handleEvent b s (.RemoveRelay url)).2 data = some data) := by
  refine ⟨?_, ?_, ?_, ?_⟩
  · cases h : (b.add_relay s url).1 with
    | RelayAdded r =>
        cases r
        · simp [handleEvent, h, update_config_state, isPublish]
        · simp [handleEvent, h, isPublish]
    | RemovedRelay r => simp [handleEvent, h, isPublish]
    | Other => simp [handleEvent, h, isPublish]
  · cases h : (b.remove_relay s url).1 with
    | RelayAdded r => simp [handleEvent, h, isPublish]
    | RemovedRelay r =>
        cases r
        · simp [handleEvent, h, update_config_state, isPublish]
        · simp [handleEvent, h, isPublish]
    | Other => simp [handleEvent, h, isPublish]
  · intro hfail
    cases h : (b.add_relay s url).1 with
    | RelayAdded r =>
        cases r
        · exact absurd h hfail
        · simp [handleEvent, h, applyTrace, applyAction]
    | RemovedRelay r => simp [handleEvent, h, applyTrace, applyAction]
    | Other => simp [handleEvent, h, applyTrace, applyAction]
  · intro hfail
    cases h : (b.remove_relay s url).1 with
    | RelayAdded r => simp [handleEvent, h, applyTrace, applyAction]
    | RemovedRelay r =>
        cases r
        · exact absurd h hfail
        · simp [handleEvent, h, applyTrace, applyAction]
    | Other => simp [handleEvent, h, applyTrace, applyAction]

/-- C1 witness: on the rejecting behaviour, a failing AddRelay leaves the
concrete presentation state untouched. -/
theorem relay_mutations_publish_iff_success_witness :
    applyTrace (handleEvent rejectingBehavior sampleCore (.AddRelay "wss://new.example")).2
        sampleApp
      = some sampleApp :=
  (relay_mutations_publish_iff_success rejectingBehavior sampleCore "wss://new.example"
      sampleApp).2.2.1 (by decide)

/-- C2: For every AddContact and RemoveContact command the config snapshot
is refreshed and published unconditionally: the handler's trace is the same
whatever event the core operation returned, and it always contains a
publication. -/
theorem contact_mutations_refresh_unconditionally (b : CoreBehavior) (s : CoreState)
    (c : Contact) :
    (handleEvent b s (.AddContact c)).2
        = Action.callAddContact c :: update_config_state (b.add_contact s c).2
    ∧ (handleEvent b s (.RemoveContact c)).2
        = Action.callRemoveContact c :: update_config_state (b.remove_contact s c).2
    ∧ (handleEvent b s (.AddContact c)).2.any isPublish = true
    ∧ (handleEvent b s (.RemoveContact c)).2.any isPublish = true :=
  ⟨rfl, rfl, rfl, rfl⟩

/-- C3: SetConversation(pk) publishes a ConversationSnapshot built from the
conversation when the core returns one, and publishes nothing (leaving the
presentation state, in particular the previously selected conversation,
unchanged) when the core returns none. -/
theorem setConversation_found_or_unchanged (b : CoreBehavior) (s : CoreState) (pk : String)
    (data : AppState) :
    (∀ conv, s.get_conv pk = some conv →
        (handleEvent b s (.SetConversation pk)).2
            = [Action.callGetConv pk, Action.setSelectedConvFrom conv]
          ∧ applyTrace (handleEvent b s (.SetConversation pk)).2 data
            = some { data with selected_conv := some (ConversationState.from_entity conv) })
    ∧ (s.get_conv pk = none →
        (handleEvent b s (.SetConversation pk)).2 = [Action.callGetConv pk]
          ∧ applyTrace (handleEvent b s (.SetConversation pk)).2 data = some data) := by
  constructor
  · intro conv h
    constructor
    · simp [handleEvent, h]
    · simp [handleEvent, h, applyTrace, applyAction]
  · intro h
    constructor
    · simp [handleEvent, h]
    · simp [handleEvent, h, applyTrace, applyAction]

/-- C3 witness: selecting the known peer publishes its snapshot into the
concrete presentation state. -/
theorem setConversation_found_or_unchanged_witness :
    (handleEvent sampleBehavior sampleCore (.SetConversation "npub-alice")).2
        = [Action.callGetConv "npub-alice", Action.setSelectedConvFrom { messages := [] }]
      ∧ applyTrace (handleEvent sampleBehavior sampleCore (.SetConversation "npub-alice")).2
          sampleApp
        = some { sampleApp with
                   selected_conv := some (ConversationState.from_entity { messages := [] }) } :=
  (setConversation_found_or_unchanged sampleBehavior sampleCore "npub-alice" sampleApp).1
    { messages := [] } (by decide)

/-- C4: while a conversation is selected, the relay's mutation closure for a
new-message notification replaces the selected snapshot with a copy whose
message sequence is exactly the old sequence followed by the projection of
the notified message, all other presentation state unchanged. -/
theorem new_message_appends_to_selected (new_msg : Msg) (data : AppState)
    (conv : ConversationState) (h : data.selected_conv = some conv) :
    noti_callback (.NewMessage new_msg) data
      = { data with
            selected_conv :=
              some { conv with
                       messages := conv.messages ++ [MessageState.from_entity new_msg] } } := by
  simp [noti_callback, h]

/-- C4 witness: appending one concrete message to the selected concrete
conversation. -/
theorem new_message_appends_to_selected_witness :
    noti_callback (.NewMessage sampleMsg) sampleAppWithConv
      = { sampleAppWithConv with
            selected_conv :=
              some { sampleConvState with
                       messages :=
                         sampleConvState.messages ++ [MessageState.from_entity sampleMsg] } } :=
  new_message_appends_to_selected sampleMsg sampleAppWithConv sampleConvState rfl

/-- C5: while no conversation is selected, the relay's mutation closure
leaves the presentation state entirely unchanged, and the rest of the relay
run proceeds exactly as if the notification had never arrived (dropped, not
queued). -/
theorem new_message_dropped_when_unselected (new_msg : Msg) (data : AppState)
    (rest : List ConvsNotifications) (h : data.selected_conv = none) :
    noti_callback (.NewMessage new_msg) data = data
    ∧ relay_loop (.NewMessage new_msg :: rest) data = relay_loop rest data := by
  have h1 : noti_callback (.NewMessage new_msg) data = data := by
    simp [noti_callback, h]
  exact ⟨h1, by simp [relay_loop, h1]⟩

/-- C5 witness: a concrete notification is dropped on the concrete
presentation state with no selection. -/
theorem new_message_dropped_when_unselected_witness :
    noti_callback (.NewMessage sampleMsg) sampleApp = sampleApp
    ∧ relay_loop [.NewMessage sampleMsg] sampleApp = relay_loop [] sampleApp :=
  new_message_dropped_when_unselected sampleMsg sampleApp [] rfl

/-- C6 counterexample: on a concrete behaviour and core state, the
GenerateNewKeyPair handler does not satisfy "exactly one UserSnapshot
publication and exactly one resubscription call with the publication
preceding the resubscription": the publication comes after the
`subscribe()` call. -/
theorem generateNewKeyPair_publication_not_first :
    ¬ ((((handleEvent sampleBehavior sampleCore .GenerateNewKeyPair).2.filter
            isUserPublish).length = 1)
       ∧ (((handleEvent sampleBehavior sampleCore .GenerateNewKeyPair).2.filter
            isSubscribeCall).length = 1)
       ∧ user_publish_precedes_subscribe
           (handleEvent sampleBehavior sampleCore .GenerateNewKeyPair).2) := by
  decide

/-- C6 amended: every GenerateNewKeyPair command triggers exactly one
resubscription call and exactly one UserSnapshot publication, with the
resubscription preceding the publication. -/
theorem generateNewKeyPair_subscribe_then_publish (b : CoreBehavior) (s : CoreState) :
    ((handleEvent b s .GenerateNewKeyPair).2.filter isUserPublish)
        = [Action.setUserFrom (b.subscribe (b.gen_new_user_keypair s)).get_user]
    ∧ ((handleEvent b s .GenerateNewKeyPair).2.filter isSubscribeCall)
        = [Action.callSubscribe]
    ∧ subscribe_precedes_user_publish (handleEvent b s .GenerateNewKeyPair).2 := by
  refine ⟨rfl, rfl, ?_⟩
  refine ⟨⟨1, ?_⟩, ⟨3, ?_⟩, ?_, rfl, rfl⟩
  · show 1 < 4
    decide
  · show 3 < 4
    decide
  · show 1 < 3
    decide

/-- C7: at broker startup exactly one configuration load is performed and
its snapshot is published (via the `BROKER_NOTI` `ConfigUpdated`
notification) before any command from the Command Channel is processed:
the broker's trace is the load, the publication, then the command loop's
trace, and the pre-loop segment contains exactly that one publication. -/
theorem startup_config_published_before_commands (b : CoreBehavior) (init : CoreState)
    (events : List BrokerEvent) :
    (start_broker b init events).2
        = Action.callGetConfig :: Action.submitConfigUpdated (load_config init)
            :: (command_loop b init events).2
    ∧ ((start_broker b init events).2.take 2).filter isPublish
        = [Action.submitConfigUpdated (load_config init)] :=
  ⟨rfl, rfl⟩

/-- C8: the command loop handles the head command first — its whole trace
precedes everything the loop does afterwards and the rest of the channel is
consumed from the resulting core state — and it returns only on the empty
(closed) channel, where it stops without further actions. -/
theorem command_loop_sequential_until_closed (b : CoreBehavior) (s : CoreState)
    (broker_event : BrokerEvent) (rest : List BrokerEvent) :
    command_loop b s [] = (s, [])
    ∧ command_loop b s (broker_event :: rest)
        = ((command_loop b (handleEvent b s broker_event).1 rest).1,
           (handleEvent b s broker_event).2
             ++ (command_loop b (handleEvent b s broker_event).1 rest).2) :=
  ⟨rfl, rfl⟩

/-- C9: the UserSnapshot closure submitted by RestoreKeyPair and
GenerateNewKeyPair captures the user read from the core after the key
operation and the resubscription; applying it panics exactly when that user
holds no secret key, and with a secret key present it publishes the built
`UserState`. -/
theorem user_snapshot_closure_panics_iff_no_sk (b : CoreBehavior) (s : CoreState) (sk : String)
    (u : User) (data : AppState) :
    (applyAction (Action.setUserFrom u) data = none ↔ u.get_sk = none)
    ∧ (∀ k, u.get_sk = some k →
        applyAction (Action.setUserFrom u) data
          = some { data with user := UserState.new k u.get_pk })
    ∧ (handleEvent b s .GenerateNewKeyPair).2
        = [Action.callGenNewUserKeypair, Action.callSubscribe, Action.callGetUser,
           Action.setUserFrom (b.subscribe (b.gen_new_user_keypair s)).get_user]
    ∧ (handleEvent b s (.RestoreKeyPair sk)).2
        = [Action.callImportUserSk sk, Action.callSubscribe, Action.callGetUser,
           Action.setUserFrom (b.subscribe (b.import_user_sk s sk)).get_user] := by
  refine ⟨?_, ?_, rfl, rfl⟩
  · cases h : u.sk with
    | none => simp [applyAction, User.get_sk, h]
    | some k => simp [applyAction, User.get_sk, h]
  · intro k hk
    simp only [User.get_sk] at hk
    simp [applyAction, User.get_sk, hk, User.get_pk]

/-- C9 witness: the closure panics on a concrete captured user without a
secret key. -/
theorem user_snapshot_closure_panics_iff_no_sk_witness :
    applyAction (Action.setUserFrom { sk := none, pk := "npub-x" }) sampleApp = none :=
  ((user_snapshot_closure_panics_iff_no_sk sampleBehavior sampleCore "nsec-w"
      { sk := none, pk := "npub-x" } sampleApp).1).mpr rfl

/-- C10: the SubscribeInRelays handler ignores the pk payload entirely —
for any two public keys the handler performs the identical parameterless
`subscribe()` call and yields the identical core state and trace. -/
theorem subscribeInRelays_ignores_pk (b : CoreBehavior) (s : CoreState) (pk1 pk2 : String) :
    handleEvent b s (.SubscribeInRelays pk1) = handleEvent b s (.SubscribeInRelays pk2) :=
  rfl

end Loquaz
